import Mathlib

/-!
Shallow embedding of the SystemInfo dashboard's core client logic:

* the historical-data buffer hook (`useHistoricalData`): `newPoint`,
  `addDataPoint` with capacity `MAX_DATA_POINTS = 60` and JS
  `Array.prototype.slice(-60)` truncation;
* the performance-chart derived series (`PerformanceChart`):
  per-sample CPU average (`cpuDataEntry`) and point-to-point network
  throughput (`networkDataEntry`), with JS number semantics for the
  unguarded division (NaN / Infinity modelled explicitly by `JsNum`);
* the theme toggle (`ThemeContext.toggleTheme`);
* the polling scheduler in `App.tsx` (`fetchData` body, the mount
  effect's interval, and the unmount cleanup), modelled as a step
  relation on an `AppState` driven by `Event`s.

JavaScript numbers are modelled by `ℚ` (timestamps and byte counters by
`ℤ`); the only place the code can produce a non-finite number is the
network-rate division, which is modelled by `jsDiv` returning `JsNum`.
Presentational fields not read by the embedded logic are elided from the
record types.
-/

namespace SystemInfo

/-- Type `NetworkInfo.io_counters` from types.ts (packets fields elided;
the code reads only `bytes_sent` / `bytes_recv`). -/
structure IoCounters where
  bytes_sent : ℤ
  bytes_recv : ℤ
deriving DecidableEq

/-- Type `CpuInfo` from types.ts (only the field read by the buffer /
chart logic). -/
structure CpuInfo where
  cpu_percent : List ℚ
deriving DecidableEq

/-- Type `MemoryInfo` from types.ts (only the field read by the buffer
logic). -/
structure MemoryInfo where
  percent : ℚ
deriving DecidableEq

/-- Type `NetworkInfo` from types.ts; `io_counters` is optional here
because the code accesses it as `data.network?.io_counters?.…`. -/
structure NetworkInfo where
  io_counters : Option IoCounters
deriving DecidableEq

/-- Type `SystemInfoData` from types.ts: `cpu`, `memory` and `network`
are declared `… | null` there (disk and platform are never read by the
embedded logic and are elided). -/
structure SystemInfoData where
  cpu : Option CpuInfo
  memory : Option MemoryInfo
  network : Option NetworkInfo
deriving DecidableEq

/-- Type `HardwareInfo` from types.ts; the polling loop stores it
wholesale and never inspects it, so its components are simplified to
strings. -/
structure HardwareInfo where
  gpu : List String
  motherboard : String
  processor : String
deriving DecidableEq

/-- Type `HistoricalDataPoint` from types.ts. -/
structure HistoricalDataPoint where
  timestamp : ℤ
  cpu_percent : List ℚ
  memory_percent : ℚ
  network_bytes_sent : ℤ
  network_bytes_recv : ℤ
deriving DecidableEq

/-- `const MAX_DATA_POINTS = 60` in useHistoricalData.ts. -/
def MAX_DATA_POINTS : ℕ := 60

/-- JS `l.slice(-n)`: the last `n` elements of `l` (all of `l` when
`l.length ≤ n`). -/
def sliceLast (n : ℕ) (l : List α) : List α := l.drop (l.length - n)

/-- The `newPoint` object built by `addDataPoint` in useHistoricalData.ts:
`timestamp: now`, `cpu_percent: data.cpu?.cpu_percent || []`,
`memory_percent: data.memory?.percent || 0`,
`network_bytes_sent: data.network?.io_counters?.bytes_sent || 0`, and
likewise for `bytes_recv`.  `now` (`Date.now()`) is passed explicitly. -/
def newPoint (now : ℤ) (data : SystemInfoData) : HistoricalDataPoint where
  timestamp := now
  cpu_percent := (data.cpu.map CpuInfo.cpu_percent).getD []
  memory_percent := (data.memory.map MemoryInfo.percent).getD 0
  network_bytes_sent :=
    ((data.network.bind NetworkInfo.io_counters).map IoCounters.bytes_sent).getD 0
  network_bytes_recv :=
    ((data.network.bind NetworkInfo.io_counters).map IoCounters.bytes_recv).getD 0

/-- The state update `addDataPoint` performs on the `historicalData`
array: `const updated = [...prev, newPoint]; if (updated.length >
MAX_DATA_POINTS) return updated.slice(-MAX_DATA_POINTS); return
updated;`. -/
def addDataPoint (now : ℤ) (data : SystemInfoData)
    (prev : List HistoricalDataPoint) : List HistoricalDataPoint :=
  let updated := prev ++ [newPoint now data]
  if updated.length > MAX_DATA_POINTS then sliceLast MAX_DATA_POINTS updated
  else updated

/-- A sequence of `addDataPoint` calls (each with its `Date.now()` value
and snapshot), applied in order to an initial buffer. -/
def appendAll (inputs : List (ℤ × SystemInfoData))
    (init : List HistoricalDataPoint) : List HistoricalDataPoint :=
  inputs.foldl (fun acc p => addDataPoint p.1 p.2 acc) init

/-- A JavaScript number that is either finite (a rational) or one of the
non-finite values NaN, Infinity, -Infinity. -/
inductive JsNum where
  | num (q : ℚ)
  | nan
  | inf
  | ninf
deriving DecidableEq

/-- JS division `a / b` on finite operands: finite when `b ≠ 0`;
`0 / 0` is NaN and `a / 0` is ±Infinity by the sign of `a`. -/
def jsDiv (a b : ℚ) : JsNum :=
  if b = 0 then
    if a = 0 then JsNum.nan else if a > 0 then JsNum.inf else JsNum.ninf
  else JsNum.num (a / b)

/-- JS `Math.round`: round half toward positive infinity. -/
def jsRound (q : ℚ) : ℤ := ⌊q + 1 / 2⌋

/-- The rounding idiom `Math.round(x * 100) / 100` used by the chart. -/
def round2 (q : ℚ) : ℚ := (jsRound (q * 100) : ℚ) / 100

/-- Apply a finite-number operation to a `JsNum`; NaN and ±Infinity
propagate unchanged (as they do through `Math.round` and division by a
positive constant). -/
def jsMap (f : ℚ → ℚ) : JsNum → JsNum
  | JsNum.num q => JsNum.num (f q)
  | JsNum.nan => JsNum.nan
  | JsNum.inf => JsNum.inf
  | JsNum.ninf => JsNum.ninf

/-- One entry of `cpuData` in PerformanceChart.tsx:
`if (point.cpu_percent.length === 0) return 0; const avg =
point.cpu_percent.reduce((a, b) => a + b, 0) / point.cpu_percent.length;
return Math.round(avg * 100) / 100;`. -/
def cpuDataEntry (point : HistoricalDataPoint) : ℚ :=
  if point.cpu_percent.length = 0 then 0
  else
    round2 ((point.cpu_percent.foldl (fun a b => a + b) 0) /
      (point.cpu_percent.length : ℚ))

/-- The `bytesPerSecond` value computed for a non-first entry of
`networkData` in PerformanceChart.tsx: `const timeDiff =
(point.timestamp - prev.timestamp) / 1000; const bytesPerSecond =
(point.network_bytes_sent - prev.network_bytes_sent) / timeDiff;`.
The division is not guarded, so a zero time delta produces NaN or
±Infinity. -/
def bytesPerSecond (prev point : HistoricalDataPoint) : JsNum :=
  jsDiv ((point.network_bytes_sent - prev.network_bytes_sent : ℤ) : ℚ)
    (((point.timestamp - prev.timestamp : ℤ) : ℚ) / 1000)

/-- A non-first entry of `networkData`:
`Math.round(bytesPerSecond / (1024 * 1024) * 100) / 100`. -/
def networkDataEntry (prev point : HistoricalDataPoint) : JsNum :=
  jsMap (fun q => round2 (q / (1024 * 1024))) (bytesPerSecond prev point)

/-- The `networkData` series of PerformanceChart.tsx:
`data.map((point, index) => { if (index === 0) return 0; const prev =
data[index - 1]; … })`. -/
def networkData : List HistoricalDataPoint → List JsNum
  | [] => []
  | p :: ps => JsNum.num 0 :: List.zipWith networkDataEntry (p :: ps) ps

/-- Concrete empty sample point, used as a generic buffer element. -/
def pt0 : HistoricalDataPoint := ⟨0, [], 0, 0, 0⟩

/-- Concrete snapshot value whose `cpu`, `memory` and `network`
sub-objects are all null. -/
def dataNull : SystemInfoData := ⟨none, none, none⟩

/-- A sample point with a given timestamp and sent-bytes counter (other
fields zero), used to evaluate the chart's network series. -/
def samplePt (ts sent : ℤ) : HistoricalDataPoint := ⟨ts, [], 0, sent, 0⟩

/-- A full buffer of 60 identical points. -/
def fullBuffer : List HistoricalDataPoint := List.replicate 60 pt0

/-- Type `ThemeMode = 'light' | 'dark'` from types.ts. -/
inductive ThemeMode where
  | light
  | dark
deriving DecidableEq

/-- The state update performed by `toggleTheme` in ThemeContext.tsx:
`prevTheme === 'light' ? 'dark' : 'light'` (the `localStorage` write is
a side effect on the environment, not on the theme state). -/
def toggleTheme (prevTheme : ThemeMode) : ThemeMode :=
  if prevTheme = ThemeMode.light then ThemeMode.dark else ThemeMode.light

lemma length_sliceLast (n : ℕ) (l : List α) :
    (sliceLast n l).length = min n l.length := by
  rw [sliceLast, List.length_drop]
  omega

lemma sliceLast_of_le {n : ℕ} {l : List α} (h : l.length ≤ n) :
    sliceLast n l = l := by
  simp [sliceLast, Nat.sub_eq_zero_of_le h]

lemma sliceLast_append_singleton (n : ℕ) (l : List α) (x : α) :
    sliceLast n (sliceLast n l ++ [x]) = sliceLast n (l ++ [x]) := by
  rcases le_or_lt l.length n with h | h
  · rw [sliceLast_of_le h]
  · have hA : (l.drop (l.length - n)).length = n := by
      rw [List.length_drop]; omega
    rcases Nat.eq_zero_or_pos n with hn | hn
    · subst hn
      simp [sliceLast]
    · show (l.drop (l.length - n) ++ [x]).drop
          ((l.drop (l.length - n) ++ [x]).length - n)
        = (l ++ [x]).drop ((l ++ [x]).length - n)
      rw [List.length_append, List.length_append, hA]
      have e1 : n + [x].length - n = 1 := by simp
      have e2 : l.length + [x].length - n = (l.length - n) + 1 := by
        simp only [List.length_singleton]; omega
      rw [e1, e2]
      rw [List.drop_append_of_le_length (by omega : 1 ≤ (l.drop (l.length - n)).length)]
      rw [List.drop_append_of_le_length (by omega : l.length - n + 1 ≤ l.length)]
      rw [List.drop_drop]

lemma addDataPoint_eq_sliceLast (now : ℤ) (data : SystemInfoData)
    (prev : List HistoricalDataPoint) :
    addDataPoint now data prev =
      sliceLast MAX_DATA_POINTS (prev ++ [newPoint now data]) := by
  simp only [addDataPoint]
  split
  · rfl
  · next hle => exact (sliceLast_of_le (Nat.le_of_not_lt hle)).symm

lemma appendAll_nil (inputs : List (ℤ × SystemInfoData)) :
    appendAll inputs [] =
      sliceLast MAX_DATA_POINTS (inputs.map fun p => newPoint p.1 p.2) := by
  induction inputs using List.reverseRecOn with
  | nil => rfl
  | append_singleton xs a ih =>
    rw [appendAll, List.foldl_append]
    show addDataPoint a.1 a.2 (appendAll xs []) = _
    rw [ih, addDataPoint_eq_sliceLast, sliceLast_append_singleton, List.map_append]
    rfl

lemma addDataPoint_getLast (now : ℤ) (data : SystemInfoData)
    (prev : List HistoricalDataPoint) :
    (addDataPoint now data prev).getLast? = some (newPoint now data) := by
  simp only [addDataPoint]
  split
  · rw [sliceLast]
    rw [List.drop_append_of_le_length
      (by simp only [List.length_append, List.length_singleton, MAX_DATA_POINTS]; omega :
        (prev ++ [newPoint now data]).length - MAX_DATA_POINTS ≤ prev.length)]
    simp
  · simp

/-- Claim C1: for every sequence of appends starting from the empty
buffer, the buffer's length never exceeds `MAX_DATA_POINTS = 60`, and
the resulting buffer is exactly the (at most) 60 most-recently-appended
sample points, in insertion order, oldest first. -/
theorem claim_C1_buffer_capacity_and_contents
    (inputs : List (ℤ × SystemInfoData)) :
    (appendAll inputs []).length ≤ MAX_DATA_POINTS ∧
      appendAll inputs [] =
        sliceLast MAX_DATA_POINTS (inputs.map fun p => newPoint p.1 p.2) := by
  refine ⟨?_, appendAll_nil inputs⟩
  rw [appendAll_nil inputs, length_sliceLast]
  omega

/-- Claim C2: appending to a buffer of length exactly 60 yields a buffer
of length 60 whose contents are the old buffer with its oldest (front)
element removed, the relative order of the remaining 59 elements
unchanged, and the new point at the end. -/
theorem claim_C2_full_buffer_evicts_oldest (b : List HistoricalDataPoint)
    (now : ℤ) (data : SystemInfoData) (h : b.length = MAX_DATA_POINTS) :
    addDataPoint now data b = b.tail ++ [newPoint now data] ∧
      (addDataPoint now data b).length = MAX_DATA_POINTS := by
  have hlen : (b ++ [newPoint now data]).length = MAX_DATA_POINTS + 1 := by
    simp [h]
  have h1 : addDataPoint now data b = b.tail ++ [newPoint now data] := by
    simp only [addDataPoint]
    rw [if_pos (show (b ++ [newPoint now data]).length > MAX_DATA_POINTS by
      rw [hlen]; omega)]
    rw [sliceLast, hlen]
    have e1 : MAX_DATA_POINTS + 1 - MAX_DATA_POINTS = 1 := by omega
    rw [e1, List.drop_append_of_le_length
      (by rw [h]; simp [MAX_DATA_POINTS] : 1 ≤ b.length), List.drop_one]
  refine ⟨h1, ?_⟩
  rw [h1, List.length_append, List.length_tail, h]
  simp [MAX_DATA_POINTS]

/-- Witness for claim C2 at a concrete full buffer of 60 points. -/
theorem claim_C2_witness :
    addDataPoint 1 dataNull fullBuffer = fullBuffer.tail ++ [newPoint 1 dataNull] ∧
      (addDataPoint 1 dataNull fullBuffer).length = MAX_DATA_POINTS :=
  claim_C2_full_buffer_evicts_oldest fullBuffer 1 dataNull
    (by simp [fullBuffer, MAX_DATA_POINTS])

/-- Claim C3, failing-input evaluation: the network-throughput series is
not guarded against a zero time delta.  For two consecutive points with
equal timestamps the code divides by zero: with equal byte counters the
entry is NaN, with a larger (smaller) second counter it is Infinity
(-Infinity) — never the 0 the specification requires. -/
theorem claim_C3_zero_time_delta_unguarded :
    networkData [samplePt 1000 500, samplePt 1000 500] = [JsNum.num 0, JsNum.nan] ∧
      networkData [samplePt 1000 500, samplePt 1000 600] = [JsNum.num 0, JsNum.inf] ∧
      networkData [samplePt 1000 600, samplePt 1000 500] = [JsNum.num 0, JsNum.ninf] := by
  refine ⟨?_, ?_, ?_⟩
  · simp [networkData, networkDataEntry, bytesPerSecond, jsDiv, jsMap, samplePt]
  · simp [networkData, networkDataEntry, bytesPerSecond, jsDiv, jsMap, samplePt]
  · simp [networkData, networkDataEntry, bytesPerSecond, jsDiv, jsMap, samplePt]
    norm_num

/-- Claim C8: deriving a sample point from a snapshot is total even for
degenerate snapshots.  When the `cpu`, `memory` and `network`
sub-objects are all null, the stored point has `cpu_percent = []`,
`memory_percent = 0` and zero byte counters, and `addDataPoint` still
appends it (it is the last element of the updated buffer). -/
theorem claim_C8_degenerate_snapshot_defaults (now : ℤ)
    (data : SystemInfoData) (prev : List HistoricalDataPoint)
    (h1 : data.cpu = none) (h2 : data.memory = none) (h3 : data.network = none) :
    newPoint now data = ⟨now, [], 0, 0, 0⟩ ∧
      (addDataPoint now data prev).getLast? =
        some (⟨now, [], 0, 0, 0⟩ : HistoricalDataPoint) := by
  have hp : newPoint now data = ⟨now, [], 0, 0, 0⟩ := by
    simp [newPoint, h1, h2, h3]
  exact ⟨hp, by rw [addDataPoint_getLast, hp]⟩

/-- Witness for claim C8 at the all-null snapshot and the empty buffer. -/
theorem claim_C8_witness :
    newPoint 7 dataNull = ⟨7, [], 0, 0, 0⟩ ∧
      (addDataPoint 7 dataNull []).getLast? =
        some (⟨7, [], 0, 0, 0⟩ : HistoricalDataPoint) :=
  claim_C8_degenerate_snapshot_defaults 7 dataNull [] rfl rfl rfl

/-- Claim C9: the chart's per-sample CPU value is 0 for an empty
per-core list (no division by a zero core count), and otherwise the
arithmetic mean of the per-core percents rounded to two decimal places
(JS `Math.round(avg * 100) / 100`). -/
theorem claim_C9_cpu_average_empty_guard (p : HistoricalDataPoint) :
    cpuDataEntry p =
      if p.cpu_percent = [] then 0
      else round2 (p.cpu_percent.sum / (p.cpu_percent.length : ℚ)) := by
  by_cases h : p.cpu_percent = []
  · simp [cpuDataEntry, h]
  · have hlen : p.cpu_percent.length ≠ 0 := by
      simpa [List.length_eq_zero] using h
    simp [cpuDataEntry, h, hlen, List.sum_eq_foldl]

/-- An HTTP response as observed by `fetchData` in App.tsx: the `ok`
flag and `status` of the `Response`, and the result of `await
response.json()` — `none` models a malformed body (the `json()` call
throws). -/
structure Response (α : Type) where
  ok : Bool
  status : ℕ
  body : Option α
deriving DecidableEq

/-- The outcome of one `fetchData` call: either both endpoints succeeded
and parsed, or the `catch` block runs with some error message (timeout,
HTTP error, network error, or parse error). -/
inductive FetchOutcome where
  | success (sysData : SystemInfoData) (hwData : HardwareInfo)
  | failure (msg : String)
deriving DecidableEq

/-- Whether an outcome takes the `catch` path of `fetchData`. -/
def FetchOutcome.isFailure : FetchOutcome → Bool
  | FetchOutcome.failure _ => true
  | FetchOutcome.success _ _ => false

/-- The response-processing body of `fetchData` in App.tsx, as a
function of the two resolved responses: `if (!systemResponse.ok) throw
…; if (!hardwareResponse.ok) throw …; const systemData = await
systemResponse.json(); const hardwareData = await
hardwareResponse.json(); …` — any throw lands in the `catch` block,
modelled as `failure`. -/
def fetchBody (sysR : Response SystemInfoData) (hwR : Response HardwareInfo) :
    FetchOutcome :=
  if !sysR.ok then FetchOutcome.failure ("System info: HTTP " ++ toString sysR.status)
  else if !hwR.ok then FetchOutcome.failure ("Hardware info: HTTP " ++ toString hwR.status)
  else
    match sysR.body, hwR.body with
    | none, _ => FetchOutcome.failure "Failed to fetch system data"
    | some _, none => FetchOutcome.failure "Failed to fetch system data"
    | some sysData, some hwData => FetchOutcome.success sysData hwData

/-- An endpoint call counts as successful when the HTTP status is a
success and the body parses as JSON. -/
def respOk {α : Type} (r : Response α) : Prop := r.ok = true ∧ r.body ≠ none

/-- The state owned by `AppContent` in App.tsx: the `systemInfo`,
`hardwareInfo` and `error` React state, the `historicalData` buffer of
the `useHistoricalData` hook, together with the number of `fetchData`
calls currently awaiting their responses and whether the 5-second
interval is still installed. -/
structure AppState where
  systemInfo : Option SystemInfoData
  hardwareInfo : Option HardwareInfo
  error : Option String
  historicalData : List HistoricalDataPoint
  inFlight : ℕ
  timerActive : Bool
deriving DecidableEq

/-- The events driving `AppContent`: a timer tick (including the
immediate call at mount) synchronously runs the head of `fetchData`
(`setError(null)` and the two `fetch` calls); an outstanding `fetchData`
resolves with an outcome at time `now`; the effect cleanup runs
(`clearInterval`). -/
inductive Event where
  | tick
  | complete (now : ℤ) (outcome : FetchOutcome)
  | unmount
deriving DecidableEq

/-- One event of the `AppContent` loop.  A tick invokes `fetchData`
unconditionally — the code has no single-flight guard — which clears
the error and leaves a fetch outstanding.  A completion runs the rest
of `fetchData`: on success it sets both snapshots and appends a derived
point to the buffer; on failure it only sets the error.  The cleanup
function runs `clearInterval(intervalId)` and nothing else — it does
not abort an outstanding fetch. -/
def step (s : AppState) : Event → AppState
  | Event.tick =>
      if s.timerActive then { s with error := none, inFlight := s.inFlight + 1 }
      else s
  | Event.complete now outcome =>
      if s.inFlight = 0 then s
      else
        match outcome with
        | FetchOutcome.success sysData hwData =>
            { s with systemInfo := some sysData, hardwareInfo := some hwData,
                     historicalData := addDataPoint now sysData s.historicalData,
                     inFlight := s.inFlight - 1 }
        | FetchOutcome.failure msg =>
            { s with error := some msg, inFlight := s.inFlight - 1 }
  | Event.unmount => { s with timerActive := false }

/-- A sequence of events applied in order. -/
def runEvents (s : AppState) (es : List Event) : AppState := es.foldl step s

/-- The state right after mount: all three references null/empty, no
fetch outstanding, interval installed. -/
def initState : AppState := ⟨none, none, none, [], 0, true⟩

/-- A concrete stopped state with one fetch still outstanding. -/
def stoppedState : AppState := ⟨none, none, none, [], 1, false⟩

/-- A concrete well-formed snapshot. -/
def sampleSys : SystemInfoData :=
  ⟨some ⟨[25, 75]⟩, some ⟨42⟩, some ⟨some ⟨1000, 2000⟩⟩⟩

/-- A concrete hardware snapshot. -/
def sampleHw : HardwareInfo := ⟨["gpu0"], "board", "cpu"⟩

/-- Claim C4: a poll cycle that fails (tick followed by a failure
completion) leaves the stored system snapshot, hardware snapshot and
historical buffer unchanged, and updates only the current-error
reference. -/
theorem claim_C4_failure_updates_only_error (s : AppState) (now : ℤ)
    (msg : String) (h : s.timerActive = true) :
    (runEvents s [Event.tick, Event.complete now (FetchOutcome.failure msg)]).systemInfo
        = s.systemInfo ∧
      (runEvents s [Event.tick, Event.complete now (FetchOutcome.failure msg)]).hardwareInfo
        = s.hardwareInfo ∧
      (runEvents s [Event.tick, Event.complete now (FetchOutcome.failure msg)]).historicalData
        = s.historicalData ∧
      (runEvents s [Event.tick, Event.complete now (FetchOutcome.failure msg)]).error
        = some msg := by
  simp [runEvents, step, h]

/-- Witness for claim C4: the first poll times out; the snapshots stay
null and the buffer stays empty. -/
theorem claim_C4_witness :
    (runEvents initState [Event.tick, Event.complete 0
        (FetchOutcome.failure "Request timed out - server may be overloaded")]).systemInfo
        = initState.systemInfo ∧
      (runEvents initState [Event.tick, Event.complete 0
        (FetchOutcome.failure "Request timed out - server may be overloaded")]).hardwareInfo
        = initState.hardwareInfo ∧
      (runEvents initState [Event.tick, Event.complete 0
        (FetchOutcome.failure "Request timed out - server may be overloaded")]).historicalData
        = initState.historicalData ∧
      (runEvents initState [Event.tick, Event.complete 0
        (FetchOutcome.failure "Request timed out - server may be overloaded")]).error
        = some "Request timed out - server may be overloaded" :=
  claim_C4_failure_updates_only_error initState 0
    "Request timed out - server may be overloaded" rfl

lemma fetchBody_isFailure_of_xor (sysR : Response SystemInfoData)
    (hwR : Response HardwareInfo)
    (h : (respOk sysR ∧ ¬ respOk hwR) ∨ (¬ respOk sysR ∧ respOk hwR)) :
    (fetchBody sysR hwR).isFailure = true := by
  rcases h with ⟨⟨hok, hsb⟩, hfail⟩ | ⟨hfail, _⟩
  · obtain ⟨sd, hsd⟩ := Option.ne_none_iff_exists'.mp hsb
    have hhw : hwR.ok = false ∨ hwR.body = none := by
      by_cases hb : hwR.body = none
      · exact Or.inr hb
      · rcases Bool.eq_false_or_eq_true hwR.ok with ht | hf
        · exact absurd ⟨ht, hb⟩ hfail
        · exact Or.inl hf
    rcases hhw with hf | hb
    · simp [fetchBody, hok, hf, FetchOutcome.isFailure]
    · rcases Bool.eq_false_or_eq_true hwR.ok with hwt | hwf
      · simp [fetchBody, hok, hwt, hsd, hb, FetchOutcome.isFailure]
      · simp [fetchBody, hok, hwf, FetchOutcome.isFailure]
  · have hsys : sysR.ok = false ∨ sysR.body = none := by
      by_cases hb : sysR.body = none
      · exact Or.inr hb
      · rcases Bool.eq_false_or_eq_true sysR.ok with ht | hf
        · exact absurd ⟨ht, hb⟩ hfail
        · exact Or.inl hf
    rcases hsys with hf | hb
    · simp [fetchBody, hf, FetchOutcome.isFailure]
    · rcases Bool.eq_false_or_eq_true sysR.ok with hst | hsf
      · rcases Bool.eq_false_or_eq_true hwR.ok with hwt | hwf
        · simp [fetchBody, hst, hwt, hb, FetchOutcome.isFailure]
        · simp [fetchBody, hst, hwf, FetchOutcome.isFailure]
      · simp [fetchBody, hsf, FetchOutcome.isFailure]

lemma runCycle_failure_preserves (s : AppState) (now : ℤ) (o : FetchOutcome)
    (ht : s.timerActive = true) (ho : o.isFailure = true) :
    (runEvents s [Event.tick, Event.complete now o]).systemInfo = s.systemInfo ∧
      (runEvents s [Event.tick, Event.complete now o]).hardwareInfo = s.hardwareInfo ∧
      (runEvents s [Event.tick, Event.complete now o]).historicalData = s.historicalData := by
  cases o with
  | success sysData hwData => simp [FetchOutcome.isFailure] at ho
  | failure msg => simp [runEvents, step, ht]

/-- Claim C5: a poll cycle in which exactly one of the two endpoints
succeeds (HTTP success and well-formed JSON) and the other fails is
treated as a full failure: `fetchBody` takes the catch path and the
cycle overwrites neither snapshot and appends nothing to the buffer. -/
theorem claim_C5_partial_success_full_failure (s : AppState) (now : ℤ)
    (sysR : Response SystemInfoData) (hwR : Response HardwareInfo)
    (ht : s.timerActive = true)
    (h : (respOk sysR ∧ ¬ respOk hwR) ∨ (¬ respOk sysR ∧ respOk hwR)) :
    (fetchBody sysR hwR).isFailure = true ∧
      (runEvents s [Event.tick, Event.complete now (fetchBody sysR hwR)]).systemInfo
        = s.systemInfo ∧
      (runEvents s [Event.tick, Event.complete now (fetchBody sysR hwR)]).hardwareInfo
        = s.hardwareInfo ∧
      (runEvents s [Event.tick, Event.complete now (fetchBody sysR hwR)]).historicalData
        = s.historicalData := by
  have hf := fetchBody_isFailure_of_xor sysR hwR h
  exact ⟨hf, runCycle_failure_preserves s now (fetchBody sysR hwR) ht hf⟩

/-- Witness for claim C5: the system endpoint succeeds while the
hardware endpoint returns HTTP 500 with a malformed body. -/
theorem claim_C5_witness :
    (fetchBody ⟨true, 200, some dataNull⟩ ⟨false, 500, none⟩).isFailure = true ∧
      (runEvents initState [Event.tick, Event.complete 0
          (fetchBody ⟨true, 200, some dataNull⟩ ⟨false, 500, none⟩)]).systemInfo
        = initState.systemInfo ∧
      (runEvents initState [Event.tick, Event.complete 0
          (fetchBody ⟨true, 200, some dataNull⟩ ⟨false, 500, none⟩)]).hardwareInfo
        = initState.hardwareInfo ∧
      (runEvents initState [Event.tick, Event.complete 0
          (fetchBody ⟨true, 200, some dataNull⟩ ⟨false, 500, none⟩)]).historicalData
        = initState.historicalData :=
  claim_C5_partial_success_full_failure initState 0
    ⟨true, 200, some dataNull⟩ ⟨false, 500, none⟩ rfl
    (Or.inl ⟨⟨rfl, by simp⟩, by simp [respOk]⟩)

/-- Claim C6 is false of the code: two timer ticks with no intervening
completion leave two fetches in flight, so "at most one fetch in flight
at any time" fails on the concrete trace `[tick, tick]`. -/
theorem claim_C6_counterexample :
    ¬ ∀ es : List Event, (runEvents initState es).inFlight ≤ 1 := by
  intro h
  exact absurd (h [Event.tick, Event.tick]) (by decide)

/-- Claim C6 amended: the scheduler has no single-flight guard — while
the interval is installed, every tick starts a new `fetchData` call
regardless of how many are already outstanding (and clears the error),
so overlapping fetches are possible. -/
theorem claim_C6_no_single_flight (s : AppState) (h : s.timerActive = true) :
    (step s Event.tick).inFlight = s.inFlight + 1 ∧
      (step s Event.tick).error = none := by
  simp [step, h]

/-- Witness for the amended claim C6 at the mount state. -/
theorem claim_C6_witness :
    (step initState Event.tick).inFlight = initState.inFlight + 1 ∧
      (step initState Event.tick).error = none :=
  claim_C6_no_single_flight initState rfl

/-- Claim C7 is false of the code: on the concrete trace where the
scheduler is stopped with one fetch outstanding, the buffer is empty at
stop time, yet when the outstanding fetch later resolves successfully
it still appends to the buffer and overwrites the snapshot. -/
theorem claim_C7_counterexample :
    (runEvents initState [Event.tick, Event.unmount]).historicalData = [] ∧
      (runEvents initState [Event.tick, Event.unmount,
          Event.complete 0 (FetchOutcome.success sampleSys sampleHw)]).historicalData
        = [newPoint 0 sampleSys] ∧
      (runEvents initState [Event.tick, Event.unmount,
          Event.complete 0 (FetchOutcome.success sampleSys sampleHw)]).systemInfo
        = some sampleSys :=
  ⟨rfl, rfl, rfl⟩

/-- Claim C7 amended: the effect cleanup cancels only the pending timer
— after stop a tick no longer starts a fetch or changes state — but an
in-flight fetch is not cancelled: its success completion still
overwrites the snapshot and appends the derived point to the buffer. -/
theorem claim_C7_no_fetch_cancellation (s : AppState) (now : ℤ)
    (sysData : SystemInfoData) (hwData : HardwareInfo)
    (hstop : s.timerActive = false) (hin : 0 < s.inFlight) :
    (step s Event.unmount).timerActive = false ∧
      step s Event.tick = s ∧
      (step s (Event.complete now (FetchOutcome.success sysData hwData))).historicalData
        = addDataPoint now sysData s.historicalData ∧
      (step s (Event.complete now (FetchOutcome.success sysData hwData))).systemInfo
        = some sysData := by
  have hne : s.inFlight ≠ 0 := Nat.pos_iff_ne_zero.mp hin
  exact ⟨rfl, by simp [step, hstop], by simp [step, hne], by simp [step, hne]⟩

/-- Witness for the amended claim C7 at a concrete stopped state with
one outstanding fetch. -/
theorem claim_C7_witness :
    (step stoppedState Event.unmount).timerActive = false ∧
      step stoppedState Event.tick = stoppedState ∧
      (step stoppedState (Event.complete 3
          (FetchOutcome.success sampleSys sampleHw))).historicalData
        = addDataPoint 3 sampleSys stoppedState.historicalData ∧
      (step stoppedState (Event.complete 3
          (FetchOutcome.success sampleSys sampleHw))).systemInfo
        = some sampleSys :=
  claim_C7_no_fetch_cancellation stoppedState 3 sampleSys sampleHw rfl (by decide)

/-- Claim C10: `toggleTheme` maps light to dark and dark to light, so it
is an involution on the theme state. -/
theorem claim_C10_toggle_involution (t : ThemeMode) :
    toggleTheme (toggleTheme t) = t ∧
      toggleTheme ThemeMode.light = ThemeMode.dark ∧
      toggleTheme ThemeMode.dark = ThemeMode.light := by
  cases t <;> exact ⟨rfl, rfl, rfl⟩

end SystemInfo
